import Mathlib

/-!
Verification development for the LLPETM low-latency exchange / trading
repository.  The C++ core is shallowly embedded: pure data is translated to
Lean structures, machine integers become Nat or Int (field widths only matter
for the INVALID sentinel constants, which are spelled out explicitly),
pointers into the preallocated pools become keys into finite maps, fatal
assertions (the ASSERT macro in common/macros.h, which exits the process)
become an Option result where none models process termination, and the
per-component run loops become functions from the drained queue contents to
the lists of messages they emit.  Memory-pool allocate and deallocate calls
only affect the pool free list in the source and have no observable effect on
the embedded state, so they are elided.
-/

namespace LLPETM

/-! ## Common types (common/types.h)

Side is int8_t with INVALID = 0, BUY = 1, SELL = -1.  MarketUpdateType is the
uint8_t enum of market_data/market_update.h; the version of that header kept
under src only lists INVALID, ADD, MODIFY, CANCEL, TRADE, but the snapshot
synthesizer, the market data consumer and the participant book (all under
src) also use CLEAR, SNAPSHOT_START and SNAPSHOT_END, which the spec lists as
members of the same enum, so the three extra constructors are modelled from
the spec (section 3, Market-engine update).
-/

inductive Side where
  | invalid
  | buy
  | sell
  deriving DecidableEq, Repr

inductive MarketUpdateType where
  | invalid
  | add
  | modify
  | cancel
  | trade
  | clear
  | snapshotStart
  | snapshotEnd
  deriving DecidableEq, Repr

/-- Sentinel OrderId_INVALID: max of uint64_t. -/
def OrderId_INVALID : Nat := 2 ^ 64 - 1

/-- Sentinel TickerId_INVALID: max of uint32_t. -/
def TickerId_INVALID : Nat := 2 ^ 32 - 1

/-- Sentinel Price_INVALID: max of int64_t. -/
def Price_INVALID : Int := 2 ^ 63 - 1

/-- Sentinel Qty_INVALID: max of uint32_t. -/
def Qty_INVALID : Nat := 2 ^ 32 - 1

/-- Sentinel Priority_INVALID: max of uint64_t. -/
def Priority_INVALID : Nat := 2 ^ 64 - 1

/-- MEMarketUpdate (market_data/market_update.h): a market update produced by
the matching engine.  Field names keep the C++ names without the trailing
underscore. -/
structure MEMarketUpdate where
  type : MarketUpdateType
  order_id : Nat
  ticker_id : Nat
  side : Side
  price : Int
  qty : Nat
  priority : Nat
  deriving DecidableEq, Repr

/-- The default-initialized MEMarketUpdate: every field takes its in-class
default member initializer (INVALID sentinels). -/
def MEMarketUpdate.init : MEMarketUpdate :=
  { type := .invalid
    order_id := OrderId_INVALID
    ticker_id := TickerId_INVALID
    side := .invalid
    price := Price_INVALID
    qty := Qty_INVALID
    priority := Priority_INVALID }

/-! ## SPSC bounded ring queue (common/lf_queue.h, claims C6 and C10)

The queue state carries the preallocated store (a list of fixed length), the
two indices and the element counter.  updateWriteIndex performs no check at
all in the source; it is modelled as always returning the successor state
(wrapped in Option so that its type is comparable with the read side, where
the ASSERT can fire).  updateReadIndex advances the read index and then
asserts num_elements_ != 0; a failing ASSERT exits the process, modelled by
none. -/

structure LFQueue (T : Type) where
  store : List T
  next_write_index : Nat
  next_read_index : Nat
  num_elements : Nat
  deriving DecidableEq, Repr

namespace LFQueue

variable {T : Type}

/-- size(): returns num_elements_. -/
def size (q : LFQueue T) : Nat := q.num_elements

/-- getNextToWriteTo(): a pointer to store_[next_write_index_]; modelled as
the slot contents. -/
def getNextToWriteTo (q : LFQueue T) : Option T :=
  q.store.get? q.next_write_index

/-- updateWriteIndex(): next_write_index_ = (next_write_index_ + 1) %
store_.size(); num_elements_++.  The source contains no fullness check and
cannot abort, so the result is always some. -/
def updateWriteIndex (q : LFQueue T) : Option (LFQueue T) :=
  some { q with
         next_write_index := (q.next_write_index + 1) % q.store.length
         num_elements := q.num_elements + 1 }

/-- getNextToRead(): size() ? &store_[next_read_index_] : nullptr. -/
def getNextToRead (q : LFQueue T) : Option T :=
  if q.size ≠ 0 then q.store.get? q.next_read_index else none

/-- updateReadIndex(): advances next_read_index_ modulo the store size, then
ASSERT(num_elements_ != 0) and decrements; a failing ASSERT exits the
process (none). -/
def updateReadIndex (q : LFQueue T) : Option (LFQueue T) :=
  let q1 := { q with next_read_index := (q.next_read_index + 1) % q.store.length }
  if q1.num_elements ≠ 0 then
    some { q1 with num_elements := q1.num_elements - 1 }
  else
    none

end LFQueue

/-! ## Market data publisher (market_data_publisher.h / .cpp, claim C2)

The run() loop drains the outgoing_md_updates_ queue.  For each update it
sends next_inc_seq_num_ followed by the update on the incremental socket,
writes the pair (next_inc_seq_num_, update) into the snapshot_md_updates_
queue feeding the snapshot synthesizer, and increments next_inc_seq_num_.
The loop is modelled as a function from the sequence-number register and the
list of updates drained, to the list of (seq, update) datagrams sent on the
incremental stream and the list of (seq, update) records forwarded to the
synthesizer.  next_inc_seq_num_ is initialized to 1 in the header. -/

def publisherDrain (seq : Nat) :
    List MEMarketUpdate → List (Nat × MEMarketUpdate) × List (Nat × MEMarketUpdate)
  | [] => ([], [])
  | u :: rest =>
    let (sent, fwd) := publisherDrain (seq + 1) rest
    ((seq, u) :: sent, (seq, u) :: fwd)

/-- Initial value of next_inc_seq_num_ (market_data_publisher.h). -/
def initial_next_inc_seq_num : Nat := 1

/-! ## Snapshot synthesizer (market_data/snapshot_synthesizer.h / .cpp, claims C3 and C5)

ticker_orders_ is a std::array (per ticker) of std::array (per order id) of
MEMarketUpdate pointers; both arrays are embedded as lists, a null pointer as
none.  The std::array::at accessor throws on an out-of-range index, which
also terminates the process; both that and a failing ASSERT are modelled by a
none result of addToSnapshot. -/

structure SnapshotSynthesizer where
  ticker_orders : List (List (Option MEMarketUpdate))
  last_inc_seq_num : Nat
  deriving DecidableEq, Repr

namespace SnapshotSynthesizer

/-- addToSnapshot(market_update): dispatches on the update type, mutating the
per-ticker order map (ADD asserts the slot is empty, MODIFY and CANCEL assert
the slot is occupied and that the stored order agrees on order_id_ and side_;
TRADE, CLEAR, SNAPSHOT_START, SNAPSHOT_END and INVALID leave the map alone),
then asserts seq_num_ == last_inc_seq_num_ + 1 and records seq_num_ as
last_inc_seq_num_.  none models a fatal assertion (or an out-of-range
std::array::at, which also terminates the process). -/
def addToSnapshot (s : SnapshotSynthesizer) (seq_num : Nat) (me : MEMarketUpdate) :
    Option SnapshotSynthesizer :=
  match s.ticker_orders.get? me.ticker_id with
  | none => none
  | some orders =>
    let updated : Option (List (Option MEMarketUpdate)) :=
      match me.type with
      | .add =>
        match orders.get? me.order_id with
        | none => none
        | some slot =>
          if slot = none then some (orders.set me.order_id (some me)) else none
      | .modify =>
        match orders.get? me.order_id with
        | none => none
        | some slot =>
          match slot with
          | none => none
          | some order =>
            if order.order_id = me.order_id ∧ order.side = me.side then
              some (orders.set me.order_id
                (some { order with qty := me.qty, price := me.price }))
            else none
      | .cancel =>
        match orders.get? me.order_id with
        | none => none
        | some slot =>
          match slot with
          | none => none
          | some order =>
            if order.order_id = me.order_id ∧ order.side = me.side then
              some (orders.set me.order_id none)
            else none
      | _ => some orders
    match updated with
    | none => none
    | some orders2 =>
      if seq_num = s.last_inc_seq_num + 1 then
        some { ticker_orders := s.ticker_orders.set me.ticker_id orders2
               last_inc_seq_num := seq_num }
      else none

/-- The CLEAR message publishSnapshot builds for one ticker: a default
MEMarketUpdate with type_ and ticker_id_ set. -/
def snapClearMsg (ticker_id : Nat) : MEMarketUpdate :=
  { MEMarketUpdate.init with type := .clear, ticker_id := ticker_id }

/-- The SNAPSHOT_START message: order_id_ overloaded to carry
last_inc_seq_num_. -/
def snapStartMsg (last_inc_seq_num : Nat) : MEMarketUpdate :=
  { MEMarketUpdate.init with type := .snapshotStart, order_id := last_inc_seq_num }

/-- The SNAPSHOT_END message: order_id_ overloaded to carry
last_inc_seq_num_. -/
def snapEndMsg (last_inc_seq_num : Nat) : MEMarketUpdate :=
  { MEMarketUpdate.init with type := .snapshotEnd, order_id := last_inc_seq_num }

/-- The per-order inner loop of publishSnapshot: for each non-null slot of
one ticker map, emit the stored MEMarketUpdate with the running snapshot
sequence number, threading snapshot_size through.  Returns the counter after
the loop together with the emitted messages. -/
def publishOrders (seq : Nat) :
    List (Option MEMarketUpdate) → Nat × List (Nat × MEMarketUpdate)
  | [] => (seq, [])
  | none :: rest => publishOrders seq rest
  | some order :: rest =>
    let (seq2, msgs) := publishOrders (seq + 1) rest
    (seq2, (seq, order) :: msgs)

/-- The per-ticker outer loop of publishSnapshot: for ticker_id ascending,
emit a CLEAR message for the ticker (an MEMarketUpdate whose other fields are
default initialized) followed by every live order of that ticker. -/
def publishTickers (seq ticker_id : Nat) :
    List (List (Option MEMarketUpdate)) → Nat × List (Nat × MEMarketUpdate)
  | [] => (seq, [])
  | orders :: rest =>
    let clear_msg : Nat × MEMarketUpdate := (seq, snapClearMsg ticker_id)
    let (seq2, order_msgs) := publishOrders (seq + 1) orders
    let (seq3, rest_msgs) := publishTickers seq2 (ticker_id + 1) rest
    (seq3, clear_msg :: (order_msgs ++ rest_msgs))

/-- publishSnapshot(): a SNAPSHOT_START message at seq 0 whose order_id_
carries last_inc_seq_num_, then the per-ticker blocks, then a SNAPSHOT_END
message (again carrying last_inc_seq_num_ in order_id_) at the final counter
value.  The aggregate initializer of the start and end messages sets type_
and order_id_ and leaves the remaining fields at their defaults. -/
def publishSnapshot (s : SnapshotSynthesizer) : List (Nat × MEMarketUpdate) :=
  let start_msg : Nat × MEMarketUpdate := (0, snapStartMsg s.last_inc_seq_num)
  let (seq2, body) := publishTickers 1 0 s.ticker_orders
  let end_msg : Nat × MEMarketUpdate := (seq2, snapEndMsg s.last_inc_seq_num)
  start_msg :: (body ++ [end_msg])

end SnapshotSynthesizer

/-- The un-numbered message blocks of one snapshot round from ticker
ticker_id on: for each ticker map, in ascending ticker order, a CLEAR for
the ticker followed by the live orders of that map in slot order. -/
def tickerBlocks (ticker_id : Nat) (ts : List (List (Option MEMarketUpdate))) :
    List MEMarketUpdate :=
  (List.zipWith
      (fun i orders => SnapshotSynthesizer.snapClearMsg i :: orders.filterMap id)
      (List.range' ticker_id ts.length) ts).flatten

/-- The shape claim C3 ascribes to one snapshot round, written from the spec
wording: the un-numbered message list is SNAPSHOT_START carrying the last
incremental sequence number, then for each ticker in ascending order a CLEAR
for that ticker followed by the live orders of that ticker map in slot order,
then SNAPSHOT_END carrying the same sequence number. -/
def specSnapshotMsgs (s : SnapshotSynthesizer) : List MEMarketUpdate :=
  SnapshotSynthesizer.snapStartMsg s.last_inc_seq_num ::
    (tickerBlocks 0 s.ticker_orders ++
      [SnapshotSynthesizer.snapEndMsg s.last_inc_seq_num])

/-! ## Order gateway ingress (order_server.h, claim C4)

recvCallback reads framed OMClientRequest records from one TCP socket.  The
state the per-request logic touches is the cid_tcp_socket_ binding array and
the cid_next_exp_seq_num_ expected-sequence array, both indexed by client id;
sockets are identified by their file descriptor (a Nat).  Both arrays are
embedded as total functions from client id, which matches the std::array
indexing used by the source. -/

inductive ClientRequestType where
  | invalid
  | newOrder
  | cancel
  deriving DecidableEq, Repr

/-- MEClientRequest (order_server/client_request.h). -/
structure MEClientRequest where
  type : ClientRequestType
  client_id : Nat
  ticker_id : Nat
  order_id : Nat
  side : Side
  price : Int
  qty : Nat
  deriving DecidableEq, Repr

/-- OMClientRequest: the wire form, a sequence number followed by the
request. -/
structure OMClientRequest where
  seq_num : Nat
  me_client_request : MEClientRequest
  deriving DecidableEq, Repr

/-- The OrderServer state read and written by the body of recvCallback. -/
structure OrderServer where
  cid_tcp_socket : Nat → Option Nat
  cid_next_exp_seq_num : Nat → Nat

namespace OrderServer

/-- One iteration of the recvCallback framing loop, for a request read from
the socket with descriptor sock: bind the client id to this socket if it is
unbound, drop the request (continue) if the bound socket differs or if the
wire sequence number differs from the expected one, otherwise increment the
expected sequence number and hand the request to the FIFO sequencer.  The
second component is the request handed to fifo_sequencer_.addClientRequest,
none when the request was dropped. -/
def recvOne (s : OrderServer) (sock : Nat) (req : OMClientRequest) :
    OrderServer × Option MEClientRequest :=
  let cid := req.me_client_request.client_id
  let s :=
    if s.cid_tcp_socket cid = none then
      { s with cid_tcp_socket := Function.update s.cid_tcp_socket cid (some sock) }
    else s
  if s.cid_tcp_socket cid ≠ some sock then
    (s, none)
  else if req.seq_num ≠ s.cid_next_exp_seq_num cid then
    (s, none)
  else
    ({ s with
       cid_next_exp_seq_num :=
         Function.update s.cid_next_exp_seq_num cid (s.cid_next_exp_seq_num cid + 1) },
     some req.me_client_request)

/-- The whole framing loop over the requests decoded from one socket read,
collecting the requests handed to the FIFO sequencer in order. -/
def recvList (s : OrderServer) (sock : Nat) :
    List OMClientRequest → OrderServer × List MEClientRequest
  | [] => (s, [])
  | req :: rest =>
    let (s2, fwd) := recvOne s sock req
    let (s3, fwds) := recvList s2 sock rest
    (s3, (fwd.toList) ++ fwds)

end OrderServer

/-! ## Market data consumer (trading/market_data/market_data_consumer.cpp, claims C1 and C7)

snapshot_queued_msgs_ and incremental_queued_msgs_ are std::map containers
from sequence number to MEMarketUpdate (per the comments in the same source
file; the class header is not kept under src).  A std::map iterates in
ascending key order with distinct keys, so each buffer is embedded as an
association list understood to be sorted by its first component; the
functions below consume it exactly in list order, the way the source walks
the map.  The consumer state also tracks next_exp_inc_seq_num_, the
in_recovery_ flag, and whether the snapshot multicast group is currently
joined (startSnapshotSync joins it, checkSnapshotSync leaves it on success). -/

structure MarketDataConsumer where
  snapshot_queued_msgs : List (Nat × MEMarketUpdate)
  incremental_queued_msgs : List (Nat × MEMarketUpdate)
  next_exp_inc_seq_num : Nat
  in_recovery : Bool
  snapshot_subscribed : Bool
  deriving DecidableEq, Repr

namespace MarketDataConsumer

/-- The snapshot-buffer walk of checkSnapshotSync: iterate the buffered
snapshot messages with a running expected sequence number (starting at 0);
on the first key mismatch report an incomplete snapshot (the events gathered
up to the break are discarded by the caller, so they are not returned);
otherwise gather every message whose type is neither SNAPSHOT_START nor
SNAPSHOT_END into final_events. -/
def snapWalk (next_snapshot_seq : Nat) :
    List (Nat × MEMarketUpdate) → Bool × List MEMarketUpdate
  | [] => (true, [])
  | (k, m) :: rest =>
    if k ≠ next_snapshot_seq then
      (false, [])
    else
      let (ok, evs) := snapWalk (next_snapshot_seq + 1) rest
      if m.type ≠ .snapshotStart ∧ m.type ≠ .snapshotEnd then
        (ok, m :: evs)
      else
        (ok, evs)

/-- The incremental-buffer walk of checkSnapshotSync: skip entries whose key
is below next_exp_inc_seq_num_, break reporting an incomplete set on a gap,
otherwise gather non-SNAPSHOT messages and advance next_exp_inc_seq_num_.
Returns the completeness flag, the final value of the mutated
next_exp_inc_seq_num_ member, and the gathered events. -/
def incWalk (next_exp_inc_seq_num : Nat) :
    List (Nat × MEMarketUpdate) → Bool × Nat × List MEMarketUpdate
  | [] => (true, next_exp_inc_seq_num, [])
  | (k, m) :: rest =>
    if k < next_exp_inc_seq_num then
      incWalk next_exp_inc_seq_num rest
    else if k ≠ next_exp_inc_seq_num then
      (false, next_exp_inc_seq_num, [])
    else
      let (ok, fin, evs) := incWalk (next_exp_inc_seq_num + 1) rest
      if m.type ≠ .snapshotStart ∧ m.type ≠ .snapshotEnd then
        (ok, fin, m :: evs)
      else
        (ok, fin, evs)

/-- checkSnapshotSync(): decide whether recovery can complete from the
queued snapshot and incremental messages.  Returns the successor consumer
state together with the list of market updates written to the
incoming_md_updates_ queue feeding the participant book (final_events).
Following the source: an empty snapshot buffer returns unchanged; a first
buffered snapshot message that is not SNAPSHOT_START clears the snapshot
buffer; a sequence gap in the snapshot buffer clears the snapshot buffer; a
last message that is not SNAPSHOT_END returns leaving both buffers; then
next_exp_inc_seq_num_ is set to the SNAPSHOT_END order_id_ + 1 and the
incremental buffer is walked from there, a gap clearing the snapshot buffer
(with the partially advanced next_exp_inc_seq_num_ kept, as in the source);
on success the snapshot events followed by the consumed incremental events
are emitted, both buffers are cleared, in_recovery_ is cleared and the
snapshot multicast group is left. -/
def checkSnapshotSync (c : MarketDataConsumer) : MarketDataConsumer × List MEMarketUpdate :=
  match c.snapshot_queued_msgs with
  | [] => (c, [])
  | first :: rest =>
    if first.2.type ≠ .snapshotStart then
      ({ c with snapshot_queued_msgs := [] }, [])
    else
      let (have_complete_snapshot, snap_events) := snapWalk 0 (first :: rest)
      if ¬ have_complete_snapshot then
        ({ c with snapshot_queued_msgs := [] }, [])
      else
        let last := (first :: rest).getLast (List.cons_ne_nil first rest)
        if last.2.type ≠ .snapshotEnd then
          (c, [])
        else
          let (have_complete_incremental, next_exp2, inc_events) :=
            incWalk (last.2.order_id + 1) c.incremental_queued_msgs
          if ¬ have_complete_incremental then
            ({ c with snapshot_queued_msgs := [], next_exp_inc_seq_num := next_exp2 }, [])
          else
            ({ c with
               snapshot_queued_msgs := []
               incremental_queued_msgs := []
               next_exp_inc_seq_num := next_exp2
               in_recovery := false
               snapshot_subscribed := false },
             snap_events ++ inc_events)

end MarketDataConsumer

/-! ## Participant-side market order book (trading/strategy/market_order_book.h / .cpp, claims C8 and C9)

Orders live in the oid_to_order_ array (a map OrderId to MarketOrder
pointer); a MarketOrder pointer is embedded as the key under which the object
is registered in that map, and the intrusive prev_order_ / next_order_ links
become Option Nat keys.  Price levels live in the price_orders_at_price_
array indexed by priceToIndex(price); a MarketOrdersAtPrice pointer is
embedded as its slot index, and prev_entry_ / next_entry_ become Option Nat
slot keys (the source relies on the slot mapping being collision free).
bids_by_price_ and asks_by_price_ are the slot keys of the two head levels.
Null pointers are none.  Dereferencing a null or dangling pointer is
undefined behaviour in the source and is modelled by a none result; the
unbounded pointer chases (the while loop of addOrdersAtPrice and the
quantity accumulation of updateBBO) get a fuel argument larger than any ring
a well-formed book can hold, with fuel exhaustion (divergence in the source)
also modelled by none.  MemPool allocate / deallocate calls only touch the
pool free list and are elided, including the deallocation walks of the CLEAR
branch, whose only observable effects are the oid_to_order_ fill and the two
head resets. -/

/-- ME_MAX_PRICE_LEVELS (common/types.h). -/
def ME_MAX_PRICE_LEVELS : Nat := 256

/-- priceToIndex(price) = price % ME_MAX_PRICE_LEVELS.  price is int64_t and
ME_MAX_PRICE_LEVELS is size_t, so the C++ % first converts the price to
uint64_t (two-s complement wraparound) and the result is the mathematical
residue of the price modulo 256, which divides 2 to the 64. -/
def priceToIndex (price : Int) : Nat := (price % (ME_MAX_PRICE_LEVELS : Int)).toNat

/-- MarketOrder (trading/strategy/market_order.h), with the intrusive list
links as keys. -/
structure MarketOrder where
  order_id : Nat
  side : Side
  price : Int
  qty : Nat
  priority : Nat
  prev_order : Option Nat
  next_order : Option Nat
  deriving DecidableEq, Repr

/-- MarketOrdersAtPrice (trading/strategy/market_order.h): one price level,
with first_mkt_order_ an order key and the level links as slot keys. -/
structure MarketOrdersAtPrice where
  side : Side
  price : Int
  first_mkt_order : Option Nat
  prev_entry : Option Nat
  next_entry : Option Nat
  deriving DecidableEq, Repr

/-- BBO (trading/strategy/market_order.h). -/
structure BBO where
  bid_price : Int
  ask_price : Int
  bid_qty : Nat
  ask_qty : Nat
  deriving DecidableEq, Repr

/-- The MarketOrderBook state touched by onMarketUpdate. -/
structure MarketOrderBook where
  oid_to_order : Nat → Option MarketOrder
  price_orders_at_price : Nat → Option MarketOrdersAtPrice
  bids_by_price : Option Nat
  asks_by_price : Option Nat
  bbo : BBO

namespace MarketOrderBook

/-- getOrdersAtPrice(price): price_orders_at_price_.at(priceToIndex(price)). -/
def getOrdersAtPrice (b : MarketOrderBook) (price : Int) : Option MarketOrdersAtPrice :=
  b.price_orders_at_price (priceToIndex price)

/-- Write through a MarketOrder pointer (key k): none if the pointer is
dangling. -/
def writeOrderAt (b : MarketOrderBook) (k : Nat) (f : MarketOrder → MarketOrder) :
    Option MarketOrderBook :=
  (b.oid_to_order k).map fun o =>
    { b with oid_to_order := Function.update b.oid_to_order k (some (f o)) }

/-- Write through a MarketOrdersAtPrice pointer (slot key k). -/
def writeLevelAt (b : MarketOrderBook) (k : Nat) (f : MarketOrdersAtPrice → MarketOrdersAtPrice) :
    Option MarketOrderBook :=
  (b.price_orders_at_price k).map fun lvl =>
    { b with price_orders_at_price := Function.update b.price_orders_at_price k (some (f lvl)) }

/-- Store a level value into its slot of price_orders_at_price_. -/
def storeLevel (b : MarketOrderBook) (k : Nat) (lvl : MarketOrdersAtPrice) : MarketOrderBook :=
  { b with price_orders_at_price := Function.update b.price_orders_at_price k (some lvl) }

/-- The (side == Side::BUY ? bids_by_price_ : asks_by_price_) read. -/
def headFor (b : MarketOrderBook) (side : Side) : Option Nat :=
  if side = Side.buy then b.bids_by_price else b.asks_by_price

/-- The (side == Side::BUY ? bids_by_price_ : asks_by_price_) = v write. -/
def setHead (b : MarketOrderBook) (side : Side) (v : Option Nat) : MarketOrderBook :=
  if side = Side.buy then { b with bids_by_price := v } else { b with asks_by_price := v }

/-- The add_after condition of addOrdersAtPrice: (SELL and the new price is
above the target level) or (BUY and the new price is below it). -/
def levelCmpAfter (side : Side) (price : Int) (lvl : MarketOrdersAtPrice) : Bool :=
  decide ((side = Side.sell ∧ lvl.price < price) ∨ (side = Side.buy ∧ price < lvl.price))

/-- The while loop of addOrdersAtPrice: while (add_after and target is not
the best level) recompute add_after at the target and, when it still holds,
advance the target along next_entry_.  Divergence or a null / dangling
dereference yields none. -/
def addAfterLoop (b : MarketOrderBook) (side : Side) (price : Int) (best : Nat) :
    Nat → Bool → Option Nat → Option (Bool × Option Nat)
  | 0, _, _ => none
  | fuel + 1, add_after, target =>
    if add_after = true ∧ target ≠ some best then
      match target with
      | none => none
      | some t =>
        match b.price_orders_at_price t with
        | none => none
        | some lvl =>
          let add_after2 := levelCmpAfter side price lvl
          let target2 := if add_after2 then lvl.next_entry else target
          addAfterLoop b side price best fuel add_after2 target2
    else
      some (add_after, target)

/-- addOrdersAtPrice(new_orders_at_price): install the level into its slot,
then link it into the side ring, replacing the head when the new level is
more aggressive.  The statements follow the source line by line; every
pointer dereference re-reads the current state. -/
def addOrdersAtPrice (b : MarketOrderBook) (newLvl : MarketOrdersAtPrice) :
    Option MarketOrderBook :=
  let slot := priceToIndex newLvl.price
  let b := storeLevel b slot newLvl
  match headFor b newLvl.side with
  | none =>
    let b := setHead b newLvl.side (some slot)
    writeLevelAt b slot fun lvl => { lvl with prev_entry := some slot, next_entry := some slot }
  | some bestk =>
    match b.price_orders_at_price bestk with
    | none => none
    | some bestLvl =>
      let add_after0 := levelCmpAfter newLvl.side newLvl.price bestLvl
      let step1 : Option (Bool × Option Nat) :=
        if add_after0 then
          match bestLvl.next_entry with
          | none => none
          | some t2 =>
            match b.price_orders_at_price t2 with
            | none => none
            | some lvl2 => some (levelCmpAfter newLvl.side newLvl.price lvl2, some t2)
        else some (add_after0, some bestk)
      match step1 with
      | none => none
      | some (add_after1, target1) =>
        match addAfterLoop b newLvl.side newLvl.price bestk (ME_MAX_PRICE_LEVELS + 2)
            add_after1 target1 with
        | none => none
        | some (add_afterF, targetF) =>
          if add_afterF then
            -- add new_orders_at_price after target.
            let targetA : Option Nat :=
              if targetF = some bestk then
                match b.price_orders_at_price bestk with
                | none => none
                | some lvl => lvl.prev_entry
              else targetF
            match targetA with
            | none => none
            | some tk =>
              -- new_orders_at_price->prev_entry_ = target;
              match writeLevelAt b slot (fun lvl => { lvl with prev_entry := some tk }) with
              | none => none
              | some b =>
                -- target->next_entry_->prev_entry_ = new_orders_at_price;
                match b.price_orders_at_price tk with
                | none => none
                | some tlvl =>
                  match tlvl.next_entry with
                  | none => none
                  | some tn =>
                    match writeLevelAt b tn (fun lvl => { lvl with prev_entry := some slot }) with
                    | none => none
                    | some b =>
                      -- new_orders_at_price->next_entry_ = target->next_entry_;
                      match b.price_orders_at_price tk with
                      | none => none
                      | some tlvl2 =>
                        match writeLevelAt b slot
                            (fun lvl => { lvl with next_entry := tlvl2.next_entry }) with
                        | none => none
                        | some b =>
                          -- target->next_entry_ = new_orders_at_price;
                          writeLevelAt b tk fun lvl => { lvl with next_entry := some slot }
          else
            -- add new_orders_at_price before target.
            match targetF with
            | none => none
            | some tk =>
              match b.price_orders_at_price tk with
              | none => none
              | some tlvl =>
                -- new_orders_at_price->prev_entry_ = target->prev_entry_;
                -- new_orders_at_price->next_entry_ = target;
                match writeLevelAt b slot
                    (fun lvl => { lvl with prev_entry := tlvl.prev_entry,
                                           next_entry := some tk }) with
                | none => none
                | some b =>
                  -- target->prev_entry_->next_entry_ = new_orders_at_price;
                  match b.price_orders_at_price tk with
                  | none => none
                  | some tlvl2 =>
                    match tlvl2.prev_entry with
                    | none => none
                    | some tp =>
                      match writeLevelAt b tp (fun lvl => { lvl with next_entry := some slot }) with
                      | none => none
                      | some b =>
                        -- target->prev_entry_ = new_orders_at_price;
                        match writeLevelAt b tk (fun lvl => { lvl with prev_entry := some slot }) with
                        | none => none
                        | some b =>
                          match b.price_orders_at_price bestk with
                          | none => none
                          | some bestLvl2 =>
                            if (newLvl.side = Side.buy ∧ bestLvl2.price < newLvl.price) ∨
                               (newLvl.side = Side.sell ∧ newLvl.price < bestLvl2.price) then
                              -- target->next_entry_ = (target->next_entry_ == best ? new : old);
                              match b.price_orders_at_price tk with
                              | none => none
                              | some tlvl3 =>
                                match writeLevelAt b tk
                                    (fun lvl => { lvl with next_entry :=
                                      if tlvl3.next_entry = some bestk then some slot
                                      else tlvl3.next_entry }) with
                                | none => none
                                | some b => some (setHead b newLvl.side (some slot))
                            else
                              some b

/-- removeOrdersAtPrice(side, price): unlink the level from the side ring
(resetting the head when the level was the head or the last level on its
side), null its slot and release it. -/
def removeOrdersAtPrice (b : MarketOrderBook) (side : Side) (price : Int) :
    Option MarketOrderBook :=
  let best := headFor b side
  let slot := priceToIndex price
  match b.price_orders_at_price slot with
  | none => none
  | some lvl =>
    let afterRing : Option MarketOrderBook :=
      if lvl.next_entry = some slot then
        -- empty side of book.
        some (setHead b side none)
      else
        match lvl.prev_entry with
        | none => none
        | some lp =>
          match writeLevelAt b lp (fun l => { l with next_entry := lvl.next_entry }) with
          | none => none
          | some b =>
            match lvl.next_entry with
            | none => none
            | some ln =>
              match writeLevelAt b ln (fun l => { l with prev_entry := lvl.prev_entry }) with
              | none => none
              | some b =>
                let b :=
                  if some slot = best then
                    match b.price_orders_at_price slot with
                    | none => b
                    | some lvl2 => setHead b side lvl2.next_entry
                  else b
                writeLevelAt b slot fun l => { l with prev_entry := none, next_entry := none }
    match afterRing with
    | none => none
    | some b =>
      some { b with price_orders_at_price := Function.update b.price_orders_at_price slot none }

/-- removeOrder(order), where selfKey is the key the order pointer was
obtained under: unlink the order from its level FIFO ring (removing the
whole level when it was alone), null its oid_to_order_ slot (at the stored
order_id_ field) and release it. -/
def removeOrder (b : MarketOrderBook) (selfKey : Nat) : Option MarketOrderBook :=
  match b.oid_to_order selfKey with
  | none => none
  | some o =>
    let orders_at_price := getOrdersAtPrice b o.price
    let afterRing : Option MarketOrderBook :=
      if o.prev_order = some selfKey then
        -- only one element.
        removeOrdersAtPrice b o.side o.price
      else
        match o.prev_order with
        | none => none
        | some kb =>
          match o.next_order with
          | none => none
          | some ka =>
            match writeOrderAt b kb (fun x => { x with next_order := some ka }) with
            | none => none
            | some b =>
              match writeOrderAt b ka (fun x => { x with prev_order := some kb }) with
              | none => none
              | some b =>
                match orders_at_price with
                | none => none
                | some lvl =>
                  let b :=
                    if lvl.first_mkt_order = some selfKey then
                      match writeLevelAt b (priceToIndex o.price)
                          (fun l => { l with first_mkt_order := some ka }) with
                      | none => b
                      | some b2 => b2
                    else b
                  writeOrderAt b selfKey fun x => { x with prev_order := none, next_order := none }
    match afterRing with
    | none => none
    | some b =>
      some { b with oid_to_order := Function.update b.oid_to_order o.order_id none }

/-- addOrder(order): register the order at the tail of its price level FIFO
ring, creating and linking the level when the price has no level yet, then
record it in oid_to_order_.  The fresh pool object is identified by the key
order.order_id under which the final assignment registers it. -/
def addOrder (b : MarketOrderBook) (order : MarketOrder) : Option MarketOrderBook :=
  match getOrdersAtPrice b order.price with
  | none =>
    let order := { order with prev_order := some order.order_id,
                              next_order := some order.order_id }
    let newLvl : MarketOrdersAtPrice :=
      { side := order.side, price := order.price,
        first_mkt_order := some order.order_id, prev_entry := none, next_entry := none }
    match addOrdersAtPrice b newLvl with
    | none => none
    | some b =>
      some { b with oid_to_order := Function.update b.oid_to_order order.order_id (some order) }
  | some lvl =>
    match lvl.first_mkt_order with
    | none => none
    | some fk =>
      match b.oid_to_order fk with
      | none => none
      | some fo =>
        match fo.prev_order with
        | none => none
        | some fp =>
          -- first_order->prev_order_->next_order_ = order;
          match writeOrderAt b fp (fun x => { x with next_order := some order.order_id }) with
          | none => none
          | some b =>
            -- order->prev_order_ = first_order->prev_order_; order->next_order_ = first_order;
            match b.oid_to_order fk with
            | none => none
            | some fo2 =>
              let order := { order with prev_order := fo2.prev_order, next_order := some fk }
              -- first_order->prev_order_ = order;
              match writeOrderAt b fk (fun x => { x with prev_order := some order.order_id }) with
              | none => none
              | some b =>
                some { b with
                       oid_to_order :=
                         Function.update b.oid_to_order order.order_id (some order) }

/-- ME_MAX_ORDER_IDS (common/types.h); bounds the fuel of the updateBBO
quantity walk. -/
def ME_MAX_ORDER_IDS : Nat := 1024 * 1024

/-- The quantity accumulation of updateBBO: starting from the successor of
the first order of the level, sum qty_ until the walk returns to the first
order.  A null or dangling pointer, or a ring that avoids the first order
(divergence), yields none. -/
def levelQtyLoop (b : MarketOrderBook) (firstKey : Nat) :
    Nat → Option Nat → Nat → Option Nat
  | 0, _, _ => none
  | fuel + 1, cur, acc =>
    match cur with
    | none => none
    | some k =>
      if k = firstKey then some acc
      else
        match b.oid_to_order k with
        | none => none
        | some o => levelQtyLoop b firstKey fuel o.next_order (acc + o.qty)

/-- The per-side body of updateBBO for a non-null head: read the head level
price and sum the quantities of its FIFO ring. -/
def sideTop (b : MarketOrderBook) (headKey : Nat) : Option (Int × Nat) :=
  match b.price_orders_at_price headKey with
  | none => none
  | some lvl =>
    match lvl.first_mkt_order with
    | none => none
    | some fk =>
      match b.oid_to_order fk with
      | none => none
      | some fo =>
        (levelQtyLoop b fk (ME_MAX_ORDER_IDS + 2) fo.next_order fo.qty).map
          fun q => (lvl.price, q)

/-- updateBBO(update_bid, update_ask): refresh the requested sides of bbo_
from the top of book, writing the INVALID sentinels when the side is
empty. -/
def updateBBO (b : MarketOrderBook) (update_bid update_ask : Bool) : Option BBO :=
  let step1 : Option BBO :=
    if update_bid then
      match b.bids_by_price with
      | none => some { b.bbo with bid_price := Price_INVALID, bid_qty := Qty_INVALID }
      | some hk =>
        (sideTop b hk).map fun pq => { b.bbo with bid_price := pq.1, bid_qty := pq.2 }
    else some b.bbo
  match step1 with
  | none => none
  | some bbo1 =>
    if update_ask then
      match b.asks_by_price with
      | none => some { bbo1 with ask_price := Price_INVALID, ask_qty := Qty_INVALID }
      | some hk =>
        (sideTop b hk).map fun pq => { bbo1 with ask_price := pq.1, ask_qty := pq.2 }
    else some bbo1

/-- The bid_updated flag computed at the entry of onMarketUpdate:
bids_by_price_ non-null, a BUY side and a price at or above the best bid.
Reading the price of a dangling head pointer is a stale-memory read in the
source; it is modelled as the flag being false (the flag value never matters
for a well-formed book). -/
def bidUpdatedFlag (b : MarketOrderBook) (u : MEMarketUpdate) : Bool :=
  match b.bids_by_price with
  | none => false
  | some hk =>
    decide (u.side = Side.buy) &&
      (match b.price_orders_at_price hk with
       | none => false
       | some lvl => decide (lvl.price ≤ u.price))

/-- The ask_updated flag: asks_by_price_ non-null, a SELL side and a price at
or below the best ask. -/
def askUpdatedFlag (b : MarketOrderBook) (u : MEMarketUpdate) : Bool :=
  match b.asks_by_price with
  | none => false
  | some hk =>
    decide (u.side = Side.sell) &&
      (match b.price_orders_at_price hk with
       | none => false
       | some lvl => decide (u.price ≤ lvl.price))

/-- onMarketUpdate(market_update): compute the two BBO flags, dispatch on the
update type (ADD allocates and inserts a MarketOrder built from the update;
MODIFY rewrites the qty_ of the targeted order; CANCEL removes the targeted
order; TRADE forwards to the trade engine and returns without touching the
book; CLEAR releases every order, nulls every oid_to_order_ entry and both
head pointers; INVALID and SNAPSHOT_* do nothing), then recompute the BBO
sides the flags request.  none models undefined behaviour (null or dangling
dereference) or divergence; the trade-engine notifications carry no book
state and are not modelled. -/
def onMarketUpdate (b : MarketOrderBook) (u : MEMarketUpdate) : Option MarketOrderBook :=
  let bid_updated := bidUpdatedFlag b u
  let ask_updated := askUpdatedFlag b u
  let afterSwitch : Option (Option MarketOrderBook) :=
    match u.type with
    | .add =>
      let order : MarketOrder :=
        { order_id := u.order_id, side := u.side, price := u.price,
          qty := u.qty, priority := u.priority, prev_order := none, next_order := none }
      some (addOrder b order)
    | .modify =>
      match b.oid_to_order u.order_id with
      | none => some none
      | some o =>
        some (some { b with
          oid_to_order :=
            Function.update b.oid_to_order u.order_id (some { o with qty := u.qty }) })
    | .cancel => some (removeOrder b u.order_id)
    | .trade => none
    | .clear =>
      some (some { b with
        oid_to_order := fun _ => none
        bids_by_price := none
        asks_by_price := none })
    | _ => some (some b)
  match afterSwitch with
  | none => some b  -- TRADE: early return, the book is untouched.
  | some none => none
  | some (some b2) =>
    match updateBBO b2 bid_updated ask_updated with
    | none => none
    | some bbo2 => some { b2 with bbo := bbo2 }

end MarketOrderBook

/-! ## Concrete states used by witnesses and counterexamples -/

/-- A snapshot synthesizer state with one ticker, no live order, and last
incremental sequence number 4. -/
def c5TradeState : SnapshotSynthesizer :=
  { ticker_orders := [[none]], last_inc_seq_num := 4 }

/-- A TRADE update for ticker 0. -/
def c5TradeUpd : MEMarketUpdate :=
  { MEMarketUpdate.init with type := .trade, ticker_id := 0, order_id := 0 }

/-- An order server state with no client bound and every expected sequence
number at its initial value 1. -/
def c4FreshState : OrderServer :=
  { cid_tcp_socket := fun _ => none, cid_next_exp_seq_num := fun _ => 1 }

/-- A first framed request from client 3 with wire sequence number 1. -/
def c4Req : OMClientRequest :=
  { seq_num := 1
    me_client_request :=
      { type := .newOrder, client_id := 3, ticker_id := 0, order_id := 11,
        side := .buy, price := 100, qty := 5 } }

/-- A consumer state in recovery whose snapshot buffer holds a single ADD at
snapshot seq 0 (no SNAPSHOT_START anywhere) and whose incremental buffer is
non-empty. -/
def c7State : MarketDataConsumer :=
  { snapshot_queued_msgs :=
      [(0, { MEMarketUpdate.init with
             type := .add, order_id := 1, ticker_id := 0, side := .buy,
             price := 100, qty := 10, priority := 1 })]
    incremental_queued_msgs :=
      [(5, { MEMarketUpdate.init with type := .cancel, order_id := 1, ticker_id := 0 })]
    next_exp_inc_seq_num := 4
    in_recovery := true
    snapshot_subscribed := true }

/-- A live participant-side order registered under key 1, alone on its
price level ring. -/
def c9Order : MarketOrder :=
  { order_id := 1, side := .buy, price := 100, qty := 5, priority := 1,
    prev_order := some 1, next_order := some 1 }

/-- A participant book whose order map holds exactly the order with key 1
(the price-level side lists are empty in this state). -/
def c9Book : MarketOrderBook :=
  { oid_to_order := fun k => if k = 1 then some c9Order else none
    price_orders_at_price := fun _ => none
    bids_by_price := none
    asks_by_price := none
    bbo := { bid_price := Price_INVALID, ask_price := Price_INVALID,
             bid_qty := Qty_INVALID, ask_qty := Qty_INVALID } }

/-- A MODIFY market update for order 1 carrying the new quantity 7. -/
def c9ModUpd : MEMarketUpdate :=
  { MEMarketUpdate.init with
    type := .modify
    order_id := 1
    ticker_id := 0
    side := .buy
    price := 100
    qty := 7 }

/-- A CLEAR market update as the consumer emits it during recovery. -/
def c8ClearUpd : MEMarketUpdate :=
  { MEMarketUpdate.init with
    type := .clear
    ticker_id := 0 }

/-- Incremental update with seq 5 buffered during recovery (spec scenario 6). -/
def c1Upd5 : MEMarketUpdate :=
  { MEMarketUpdate.init with
    type := .add
    order_id := 5
    ticker_id := 0
    side := .buy
    price := 99
    qty := 1
    priority := 1 }

/-- Incremental update with seq 6 buffered during recovery. -/
def c1Upd6 : MEMarketUpdate :=
  { MEMarketUpdate.init with
    type := .modify
    order_id := 5
    ticker_id := 0
    side := .buy
    price := 99
    qty := 2
    priority := 1 }

/-- Incremental update with seq 7 buffered during recovery. -/
def c1Upd7 : MEMarketUpdate :=
  { MEMarketUpdate.init with
    type := .cancel
    order_id := 5
    ticker_id := 0
    side := .buy
    price := 99
    qty := 2
    priority := 1 }

/-- Incremental update with seq 8 buffered during recovery. -/
def c1Upd8 : MEMarketUpdate :=
  { MEMarketUpdate.init with
    type := .trade
    order_id := 6
    ticker_id := 0
    side := .sell
    price := 99
    qty := 2
    priority := 2 }

/-- The CLEAR message of the buffered snapshot round. -/
def c1SnapClear : MEMarketUpdate :=
  { MEMarketUpdate.init with type := .clear, ticker_id := 0 }

/-- The single live order of the buffered snapshot round. -/
def c1SnapAdd : MEMarketUpdate :=
  { MEMarketUpdate.init with
    type := .add
    order_id := 2
    ticker_id := 0
    side := .buy
    price := 100
    qty := 10
    priority := 1 }

/-- A consumer state holding one complete snapshot round aligned to
incremental seq 6 and the buffered incrementals 5 through 8, mirroring the
spec's snapshot recovery scenario. -/
def c1State : MarketDataConsumer :=
  { snapshot_queued_msgs :=
      [(0, { MEMarketUpdate.init with type := .snapshotStart, order_id := 6 }),
       (1, c1SnapClear),
       (2, c1SnapAdd),
       (3, { MEMarketUpdate.init with type := .snapshotEnd, order_id := 6 })]
    incremental_queued_msgs := [(5, c1Upd5), (6, c1Upd6), (7, c1Upd7), (8, c1Upd8)]
    next_exp_inc_seq_num := 4
    in_recovery := true
    snapshot_subscribed := true }

/-! ## Claim C6: committing a write to a full SPSC queue

The claim states that updateWriteIndex on a queue already holding N = capacity
elements aborts the process.  The source updateWriteIndex contains no check
at all: it wraps the write index and increments num_elements_ past N.  The
claim is refuted on a capacity-2 queue holding 2 elements, and the amended
statement records what the code actually does. -/

/-- C6 counterexample: on a capacity-2 queue already holding 2 elements,
updateWriteIndex does not abort; it returns the successor state whose element
count is 3, exceeding the capacity, with the write index wrapped onto the
unread slot 0 region.  This refutes the claim that the commit is a fatal
error. -/
theorem c6_full_commit_does_not_abort :
    LFQueue.updateWriteIndex
        ({ store := [10, 20], next_write_index := 0, next_read_index := 0,
           num_elements := 2 } : LFQueue Nat) =
      some { store := [10, 20], next_write_index := 1, next_read_index := 0,
             num_elements := 3 } ∧
    (2 : Nat) < 3 := by
  constructor
  · rfl
  · decide

/-- C6 amended: committing a write when the queue already holds N = capacity
elements is not checked: updateWriteIndex never aborts, it wraps the write
index modulo the store size and lets num_elements_ grow to N + 1, strictly
exceeding the capacity (so the oldest unread slot will be overwritten by the
next reservation). -/
theorem c6_amended_full_commit_overflows {T : Type} (q : LFQueue T)
    (hfull : q.num_elements = q.store.length) :
    LFQueue.updateWriteIndex q =
      some { q with next_write_index := (q.next_write_index + 1) % q.store.length,
                    num_elements := q.store.length + 1 } ∧
    q.store.length < q.store.length + 1 := by
  refine ⟨?_, Nat.lt_succ_self _⟩
  simp [LFQueue.updateWriteIndex, hfull]

/-- C6 amended witness: the amended statement applied to the concrete full
capacity-2 queue. -/
theorem c6_amended_witness :
    LFQueue.updateWriteIndex
        ({ store := [10, 20], next_write_index := 0, next_read_index := 0,
           num_elements := 2 } : LFQueue Nat) =
      some { store := [10, 20], next_write_index := 1 % 2, next_read_index := 0,
             num_elements := 2 + 1 } ∧
    (2 : Nat) < 2 + 1 := by
  exact c6_amended_full_commit_overflows
    ({ store := [10, 20], next_write_index := 0, next_read_index := 0,
       num_elements := 2 } : LFQueue Nat) rfl

/-! ## Claim C10: reading from an empty SPSC queue -/

/-- C10: for a queue whose read index is inside the store (which the modular
index arithmetic maintains), getNextToRead returns the empty result exactly
when num_elements_ is zero, and updateReadIndex on an element count of zero
terminates the process through the ASSERT on num_elements_ (modelled by
none) instead of returning a successor state. -/
theorem c10_empty_read (T : Type) (q : LFQueue T)
    (hidx : q.next_read_index < q.store.length) :
    (LFQueue.getNextToRead q = none ↔ q.num_elements = 0) ∧
    (q.num_elements = 0 → LFQueue.updateReadIndex q = none) := by
  constructor
  · constructor
    · intro hnone
      by_contra hne
      rw [LFQueue.getNextToRead, LFQueue.size, if_pos hne] at hnone
      rw [List.get?_eq_getElem?, List.getElem?_eq_getElem hidx] at hnone
      exact Option.noConfusion hnone
    · intro hz
      rw [LFQueue.getNextToRead, LFQueue.size, hz]
      simp
  · intro hz
    rw [LFQueue.updateReadIndex]
    simp [hz]

/-- C10 witness: the statement applied to a concrete empty queue of capacity
one. -/
theorem c10_empty_read_witness :
    (LFQueue.getNextToRead
        ({ store := [7], next_write_index := 0, next_read_index := 0,
           num_elements := 0 } : LFQueue Nat) = none ↔ (0 : Nat) = 0) ∧
    ((0 : Nat) = 0 →
      LFQueue.updateReadIndex
        ({ store := [7], next_write_index := 0, next_read_index := 0,
           num_elements := 0 } : LFQueue Nat) = none) := by
  exact c10_empty_read Nat _ (by decide)

/-! ## Claim C2: publisher sequence numbering -/

/-- The publisher drain loop pairs the drained updates with the consecutive
sequence numbers starting at the register value, and sends exactly what it
forwards. -/
theorem publisherDrain_eq (updates : List MEMarketUpdate) : ∀ seq : Nat,
    publisherDrain seq updates =
      ((List.range' seq updates.length).zip updates,
       (List.range' seq updates.length).zip updates) := by
  induction updates with
  | nil => intro seq; rfl
  | cons u rest ih =>
    intro seq
    rw [publisherDrain, ih (seq + 1)]
    simp [List.range'_succ]

/-- C2: starting from the initial next_inc_seq_num_ of 1, the i-th update
drained from the engine queue (1-based) is sent on the incremental stream
prefixed with sequence number i (the sent list is the drained list zipped
with 1, 2, 3, ...), the forwarded list handed to the snapshot synthesizer is
identical to the sent list, and the sequence numbers on the wire are exactly
the gap-free duplicate-free run 1 .. n in production order. -/
theorem c2_publisher_seq (updates : List MEMarketUpdate) :
    (publisherDrain initial_next_inc_seq_num updates).1 =
      (List.range' 1 updates.length).zip updates ∧
    (publisherDrain initial_next_inc_seq_num updates).2 =
      (publisherDrain initial_next_inc_seq_num updates).1 ∧
    (publisherDrain initial_next_inc_seq_num updates).1.map Prod.fst =
      List.range' 1 updates.length := by
  rw [initial_next_inc_seq_num, publisherDrain_eq updates 1]
  refine ⟨rfl, rfl, ?_⟩
  exact List.map_fst_zip _ _ (by simp)

/-! ## Claim C3: shape of one published snapshot round -/

/-- Splitting a consecutive-number run. -/
theorem range'_split (s m n : Nat) :
    List.range' s (m + n) = List.range' s m ++ List.range' (s + m) n := by
  have h := List.range'_append s m n 1
  simp only [Nat.one_mul] at h
  rw [Nat.add_comm m n]
  exact h.symm

/-- Numbering a cons-append list with consecutive numbers splits into the
head pair and the two numbered halves. -/
theorem zip_range'_cons_append {α : Type} (seq : Nat) (a : α) (l1 l2 : List α) :
    (List.range' seq (a :: (l1 ++ l2)).length).zip (a :: (l1 ++ l2)) =
      (seq, a) ::
        ((List.range' (seq + 1) l1.length).zip l1 ++
          (List.range' (seq + 1 + l1.length) l2.length).zip l2) := by
  rw [List.length_cons, List.range'_succ, List.zip_cons_cons, List.length_append,
    range'_split, List.zip_append (by simp)]

/-- The inner loop of publishSnapshot numbers the live orders of one ticker
map consecutively from its starting counter. -/
theorem publishOrders_eq (orders : List (Option MEMarketUpdate)) : ∀ seq : Nat,
    SnapshotSynthesizer.publishOrders seq orders =
      (seq + (orders.filterMap id).length,
       (List.range' seq (orders.filterMap id).length).zip (orders.filterMap id)) := by
  induction orders with
  | nil => intro seq; rfl
  | cons slot rest ih =>
    intro seq
    match slot with
    | none =>
      rw [SnapshotSynthesizer.publishOrders, ih seq]
      simp
    | some order =>
      rw [SnapshotSynthesizer.publishOrders, ih (seq + 1)]
      have hfm : List.filterMap id (some order :: rest) = order :: List.filterMap id rest := by
        simp [List.filterMap_cons]
      rw [hfm, List.length_cons, List.range'_succ, List.zip_cons_cons, Prod.mk.injEq]
      exact ⟨by omega, rfl⟩

/-- The outer loop of publishSnapshot emits, from its starting counter and
ticker id, the consecutively numbered ticker blocks. -/
theorem publishTickers_eq (ts : List (List (Option MEMarketUpdate))) :
    ∀ seq ticker_id : Nat,
    SnapshotSynthesizer.publishTickers seq ticker_id ts =
      (seq + (tickerBlocks ticker_id ts).length,
       (List.range' seq (tickerBlocks ticker_id ts).length).zip
         (tickerBlocks ticker_id ts)) := by
  induction ts with
  | nil => intro seq ticker_id; rfl
  | cons orders rest ih =>
    intro seq ticker_id
    have hblocks : tickerBlocks ticker_id (orders :: rest) =
        SnapshotSynthesizer.snapClearMsg ticker_id ::
          (orders.filterMap id ++ tickerBlocks (ticker_id + 1) rest) := by
      rw [tickerBlocks, tickerBlocks, List.length_cons, List.range'_succ]
      simp
    rw [SnapshotSynthesizer.publishTickers, publishOrders_eq orders (seq + 1)]
    dsimp only
    rw [ih (seq + 1 + (orders.filterMap id).length) (ticker_id + 1)]
    dsimp only
    rw [hblocks, zip_range'_cons_append, Prod.mk.injEq]
    constructor
    · simp only [List.length_cons, List.length_append]
      omega
    · rfl

/-- C3: one snapshot round is exactly the spec-shaped message list
(SNAPSHOT_START, then per ticker in ascending order a CLEAR followed by that
ticker map's live orders, then SNAPSHOT_END) zipped with the consecutive
per-round sequence numbers 0, 1, 2, ...; in particular the first message is
SNAPSHOT_START at seq 0 and the last is SNAPSHOT_END at the last seq, and
both carry last_inc_seq_num_ (the last incremental sequence number applied
to the snapshot map) in their order_id_ field, so the two order_id values
are equal. -/
theorem c3_publishSnapshot_shape (s : SnapshotSynthesizer) :
    SnapshotSynthesizer.publishSnapshot s =
      (List.range (specSnapshotMsgs s).length).zip (specSnapshotMsgs s) ∧
    (SnapshotSynthesizer.publishSnapshot s).head? =
      some (0, SnapshotSynthesizer.snapStartMsg s.last_inc_seq_num) ∧
    (SnapshotSynthesizer.publishSnapshot s).getLast? =
      some ((specSnapshotMsgs s).length - 1,
        SnapshotSynthesizer.snapEndMsg s.last_inc_seq_num) ∧
    (SnapshotSynthesizer.snapStartMsg s.last_inc_seq_num).order_id =
      (SnapshotSynthesizer.snapEndMsg s.last_inc_seq_num).order_id := by
  have hpub : SnapshotSynthesizer.publishSnapshot s =
      (0, SnapshotSynthesizer.snapStartMsg s.last_inc_seq_num) ::
        (((List.range' 1 (tickerBlocks 0 s.ticker_orders).length).zip
            (tickerBlocks 0 s.ticker_orders)) ++
          [(1 + (tickerBlocks 0 s.ticker_orders).length,
            SnapshotSynthesizer.snapEndMsg s.last_inc_seq_num)]) := by
    rw [SnapshotSynthesizer.publishSnapshot, publishTickers_eq s.ticker_orders 1 0]
  have hmain : SnapshotSynthesizer.publishSnapshot s =
      (List.range (specSnapshotMsgs s).length).zip (specSnapshotMsgs s) := by
    rw [hpub, specSnapshotMsgs, List.range_eq_range', zip_range'_cons_append]
    simp [List.range'_one]
  refine ⟨hmain, ?_, ?_, rfl⟩
  · rw [hpub]
    rfl
  · have hlast : (specSnapshotMsgs s).length - 1 =
        1 + (tickerBlocks 0 s.ticker_orders).length := by
      simp [specSnapshotMsgs]
      omega
    rw [hpub, hlast, ← List.cons_append, List.getLast?_concat]

/-! ## Claim C5: abort conditions of addToSnapshot

The claim lists three abort conditions: a sequence gap, an ADD for an
existing entry, and a MODIFY or CANCEL for a missing entry.  The source
additionally asserts, for MODIFY and CANCEL, that the stored entry agrees
with the incoming update on order_id_ and side_, so a MODIFY for a live
entry whose stored side differs aborts as well, refuting the only-if
direction of the claim.  The amended statement adds the consistency
assertions to the violation list. -/

/-- Setting a list slot to the value it already holds is the identity. -/
theorem set_of_get?_eq {α : Type} : ∀ (l : List α) (n : Nat) (a : α),
    l.get? n = some a → l.set n a = l
  | [], _, _, h => by simp at h
  | x :: xs, 0, a, h => by
    simp only [List.get?_cons_zero, Option.some.injEq] at h
    simp [h]
  | x :: xs, n + 1, a, h => by
    simp only [List.get?_cons_succ] at h
    simp [set_of_get?_eq xs n a h]

/-- C5 counterexample: a MODIFY whose sequence number is in order and whose
order_id has a live entry for its ticker (so none of the three violations
the claim lists holds) still aborts, because the stored entry carries side
BUY while the update carries side SELL and the source asserts side
agreement. -/
theorem c5_side_mismatch_aborts :
    SnapshotSynthesizer.addToSnapshot
        { ticker_orders :=
            [[some { MEMarketUpdate.init with
                     type := .add, order_id := 0, ticker_id := 0, side := .buy }]],
          last_inc_seq_num := 0 } 1
        { MEMarketUpdate.init with
          type := .modify, order_id := 0, ticker_id := 0, side := .sell } = none ∧
    (1 : Nat) = 0 + 1 ∧
    MEMarketUpdate.type
      { MEMarketUpdate.init with
        type := .modify, order_id := 0, ticker_id := 0, side := .sell } =
      MarketUpdateType.modify ∧
    [some { MEMarketUpdate.init with
            type := .add, order_id := 0, ticker_id := 0, side := .buy }][(0 : Nat)]? =
      some (some { MEMarketUpdate.init with
                   type := .add, order_id := 0, ticker_id := 0, side := .buy }) := by
  refine ⟨by decide, rfl, rfl, rfl⟩

/-- C5 amended: addToSnapshot aborts exactly when the incoming update
violates the in-process protocol, where the violations are: a sequence
number different from last_inc_seq_num_ + 1; an ADD for an order_id with a
live entry; a MODIFY or CANCEL for an order_id with no live entry; or a
MODIFY or CANCEL whose live entry disagrees with the update on the stored
order_id_ or side_ fields.  On every non-violating update it returns a state
whose last_inc_seq_num_ is the incoming sequence number, and TRADE, CLEAR,
SNAPSHOT_START, SNAPSHOT_END and INVALID updates leave the order maps
unchanged. -/
theorem c5_amended_addToSnapshot (s : SnapshotSynthesizer) (seq_num : Nat)
    (me : MEMarketUpdate) (orders : List (Option MEMarketUpdate))
    (hticker : s.ticker_orders.get? me.ticker_id = some orders)
    (hbound : (me.type = .add ∨ me.type = .modify ∨ me.type = .cancel) →
      me.order_id < orders.length) :
    (SnapshotSynthesizer.addToSnapshot s seq_num me = none ↔
      (seq_num ≠ s.last_inc_seq_num + 1 ∨
       (me.type = .add ∧ ∃ o, orders[me.order_id]? = some (some o)) ∨
       ((me.type = .modify ∨ me.type = .cancel) ∧
         (orders[me.order_id]? = some none ∨
          ∃ o, orders[me.order_id]? = some (some o) ∧
            (o.order_id ≠ me.order_id ∨ o.side ≠ me.side))))) ∧
    (∀ s2, SnapshotSynthesizer.addToSnapshot s seq_num me = some s2 →
      s2.last_inc_seq_num = seq_num ∧
      ((me.type ≠ .add ∧ me.type ≠ .modify ∧ me.type ≠ .cancel) →
        s2.ticker_orders = s.ticker_orders)) := by
  rw [SnapshotSynthesizer.addToSnapshot, hticker]
  cases htype : me.type with
  | add =>
    obtain ⟨slot, hslot⟩ : ∃ slot, orders[me.order_id]? = some slot :=
      ⟨_, List.getElem?_eq_getElem (hbound (Or.inl htype))⟩
    rcases slot with _ | o <;>
      by_cases hseq : seq_num = s.last_inc_seq_num + 1 <;>
        simp [hseq, hslot, htype]
  | modify =>
    obtain ⟨slot, hslot⟩ : ∃ slot, orders[me.order_id]? = some slot :=
      ⟨_, List.getElem?_eq_getElem (hbound (Or.inr (Or.inl htype)))⟩
    rcases slot with _ | o
    · by_cases hseq : seq_num = s.last_inc_seq_num + 1 <;>
        simp [hseq, hslot, htype]
    · by_cases hmatch : o.order_id = me.order_id ∧ o.side = me.side <;>
        by_cases hseq : seq_num = s.last_inc_seq_num + 1 <;>
          · simp [hseq, hslot, htype, hmatch]
            all_goals tauto
  | cancel =>
    obtain ⟨slot, hslot⟩ : ∃ slot, orders[me.order_id]? = some slot :=
      ⟨_, List.getElem?_eq_getElem (hbound (Or.inr (Or.inr htype)))⟩
    rcases slot with _ | o
    · by_cases hseq : seq_num = s.last_inc_seq_num + 1 <;>
        simp [hseq, hslot, htype]
    · by_cases hmatch : o.order_id = me.order_id ∧ o.side = me.side <;>
        by_cases hseq : seq_num = s.last_inc_seq_num + 1 <;>
          · simp [hseq, hslot, htype, hmatch]
            all_goals tauto
  | invalid =>
    by_cases hseq : seq_num = s.last_inc_seq_num + 1 <;>
      simp [hseq, htype, set_of_get?_eq _ _ _ hticker]
  | trade =>
    by_cases hseq : seq_num = s.last_inc_seq_num + 1 <;>
      simp [hseq, htype, set_of_get?_eq _ _ _ hticker]
  | clear =>
    by_cases hseq : seq_num = s.last_inc_seq_num + 1 <;>
      simp [hseq, htype, set_of_get?_eq _ _ _ hticker]
  | snapshotStart =>
    by_cases hseq : seq_num = s.last_inc_seq_num + 1 <;>
      simp [hseq, htype, set_of_get?_eq _ _ _ hticker]
  | snapshotEnd =>
    by_cases hseq : seq_num = s.last_inc_seq_num + 1 <;>
      simp [hseq, htype, set_of_get?_eq _ _ _ hticker]

/-- C5 amended witness: the amended statement applied to a concrete TRADE
update arriving with the expected sequence number 5 = 4 + 1. -/
theorem c5_amended_witness :
    (SnapshotSynthesizer.addToSnapshot c5TradeState 5 c5TradeUpd = none ↔
      ((5 : Nat) ≠ c5TradeState.last_inc_seq_num + 1 ∨
       (c5TradeUpd.type = .add ∧
         ∃ o, [(none : Option MEMarketUpdate)][c5TradeUpd.order_id]? = some (some o)) ∨
       ((c5TradeUpd.type = .modify ∨ c5TradeUpd.type = .cancel) ∧
         ([(none : Option MEMarketUpdate)][c5TradeUpd.order_id]? = some none ∨
          ∃ o, [(none : Option MEMarketUpdate)][c5TradeUpd.order_id]? = some (some o) ∧
            (o.order_id ≠ c5TradeUpd.order_id ∨ o.side ≠ c5TradeUpd.side))))) ∧
    (∀ s2, SnapshotSynthesizer.addToSnapshot c5TradeState 5 c5TradeUpd = some s2 →
      s2.last_inc_seq_num = 5 ∧
      ((c5TradeUpd.type ≠ .add ∧ c5TradeUpd.type ≠ .modify ∧ c5TradeUpd.type ≠ .cancel) →
        s2.ticker_orders = c5TradeState.ticker_orders)) :=
  c5_amended_addToSnapshot c5TradeState 5 c5TradeUpd [none] rfl (by decide)

/-! ## Claim C4: order gateway ingress gatekeeping -/

/-- C4: one iteration of the recvCallback framing loop hands the request to
the FIFO sequencer exactly when the request's client_id is bound to the
receiving socket (binding happening on the first message from that
client_id, i.e. when the binding is empty or already this socket) and the
wire sequence number equals the client's expected sequence number; what is
handed over is exactly the decoded request; a dropped request never changes
any expected sequence number; and a dropped request from a client_id that
was already bound leaves the whole state unchanged, so later in-sequence
requests from the bound socket are processed as if the dropped request had
never arrived. -/
theorem c4_recvOne_gatekeeping (s : OrderServer) (sock : Nat) (req : OMClientRequest) :
    ((OrderServer.recvOne s sock req).2 = some req.me_client_request ↔
      ((s.cid_tcp_socket req.me_client_request.client_id = none ∨
        s.cid_tcp_socket req.me_client_request.client_id = some sock) ∧
       req.seq_num = s.cid_next_exp_seq_num req.me_client_request.client_id)) ∧
    ((OrderServer.recvOne s sock req).2 = none ∨
      (OrderServer.recvOne s sock req).2 = some req.me_client_request) ∧
    ((OrderServer.recvOne s sock req).2 = none →
      (OrderServer.recvOne s sock req).1.cid_next_exp_seq_num = s.cid_next_exp_seq_num) ∧
    ((OrderServer.recvOne s sock req).2 = none →
      s.cid_tcp_socket req.me_client_request.client_id ≠ none →
      (OrderServer.recvOne s sock req).1 = s) := by
  unfold OrderServer.recvOne
  by_cases hbind : s.cid_tcp_socket req.me_client_request.client_id = none
  · by_cases hseq : req.seq_num =
        s.cid_next_exp_seq_num req.me_client_request.client_id
    · simp [hbind, hseq, Function.update_same]
    · simp [hbind, hseq, Function.update_same]
  · by_cases hsock : s.cid_tcp_socket req.me_client_request.client_id = some sock
    · by_cases hseq : req.seq_num =
          s.cid_next_exp_seq_num req.me_client_request.client_id
      · simp [hbind, hsock, hseq]
      · simp [hbind, hsock, hseq]
    · simp [hbind, hsock]

/-- C4 witness: in the fresh state, the first request from client 3 on
socket 7 with sequence number 1 is handed to the sequencer. -/
theorem c4_recvOne_witness :
    (OrderServer.recvOne c4FreshState 7 c4Req).2 = some c4Req.me_client_request :=
  (c4_recvOne_gatekeeping c4FreshState 7 c4Req).1.mpr ⟨Or.inl rfl, rfl⟩

/-! ## Claim C7: recovery check without a SNAPSHOT_START at snapshot seq 0

The claim states that in this situation the consumer emits nothing and
leaves both recovery buffers unchanged.  The source does emit nothing and
does leave the incremental buffer (and the rest of the state) unchanged, but
it discards the snapshot buffer: a non-empty buffer whose first message is
not SNAPSHOT_START is cleared by the type check, and a buffered
SNAPSHOT_START at a non-zero snapshot sequence is cleared by the gap walk.
The amended statement records the snapshot-buffer discard. -/

/-- C7 counterexample: a consumer whose snapshot buffer holds one ADD at
snapshot seq 0 (so no SNAPSHOT_START at seq 0 is buffered) emits nothing,
but checkSnapshotSync empties the non-empty snapshot buffer instead of
leaving it unchanged. -/
theorem c7_snapshot_buffer_not_preserved :
    (∀ m : MEMarketUpdate, (0, m) ∈ c7State.snapshot_queued_msgs →
      m.type ≠ MarketUpdateType.snapshotStart) ∧
    (MarketDataConsumer.checkSnapshotSync c7State).2 = [] ∧
    (MarketDataConsumer.checkSnapshotSync c7State).1.snapshot_queued_msgs = [] ∧
    c7State.snapshot_queued_msgs ≠ [] := by
  refine ⟨?_, rfl, rfl, by decide⟩
  intro m hm
  simp only [c7State, List.mem_singleton, Prod.mk.injEq] at hm
  rw [hm.2]
  decide

/-- C7 amended: whenever the buffered snapshot messages contain no
SNAPSHOT_START at snapshot sequence 0, checkSnapshotSync emits nothing to
the participant book queue, and leaves the incremental buffer, the expected
incremental sequence number, the in_recovery_ flag and the snapshot
subscription unchanged; the snapshot buffer however is discarded (when it
was already empty nothing changes at all). -/
theorem c7_amended_no_start_discards_snap (c : MarketDataConsumer)
    (h : ∀ m : MEMarketUpdate, (0, m) ∈ c.snapshot_queued_msgs →
      m.type ≠ MarketUpdateType.snapshotStart) :
    MarketDataConsumer.checkSnapshotSync c = ({ c with snapshot_queued_msgs := [] }, []) := by
  obtain ⟨snap, inc, nx, ir, ss⟩ := c
  cases snap with
  | nil => rfl
  | cons first rest =>
    obtain ⟨k, m⟩ := first
    by_cases hty : m.type = MarketUpdateType.snapshotStart
    · have hk : k ≠ 0 := by
        intro hk0
        subst hk0
        exact h m (List.mem_cons_self _ _) hty
      simp [MarketDataConsumer.checkSnapshotSync, MarketDataConsumer.snapWalk, hty, hk]
    · simp [MarketDataConsumer.checkSnapshotSync, hty]

/-- C7 amended witness: the amended statement applied to the concrete
buffered-ADD consumer state. -/
theorem c7_amended_witness :
    MarketDataConsumer.checkSnapshotSync c7State =
      ({ c7State with snapshot_queued_msgs := [] }, []) := by
  refine c7_amended_no_start_discards_snap c7State ?_
  intro m hm
  simp only [c7State, List.mem_singleton, Prod.mk.injEq] at hm
  rw [hm.2]
  decide

/-! ## Claim C1: successful snapshot recovery -/

/-- The snapshot walk of checkSnapshotSync over a buffer whose keys are the
consecutive run starting at the expected value succeeds and gathers exactly
the non-SNAPSHOT_START / non-SNAPSHOT_END messages in buffer order. -/
theorem snapWalk_complete (l : List (Nat × MEMarketUpdate)) : ∀ e : Nat,
    l.map Prod.fst = List.range' e l.length →
    MarketDataConsumer.snapWalk e l =
      (true, (l.map Prod.snd).filter
        (fun m => decide (m.type ≠ MarketUpdateType.snapshotStart ∧
                          m.type ≠ MarketUpdateType.snapshotEnd))) := by
  induction l with
  | nil => intro e _; rfl
  | cons p rest ih =>
    intro e hkeys
    obtain ⟨k, m⟩ := p
    rw [List.map_cons, List.length_cons, List.range'_succ, List.cons.injEq] at hkeys
    obtain ⟨hk, hrest⟩ := hkeys
    subst hk
    rw [MarketDataConsumer.snapWalk, if_neg (by simp), ih (k + 1) hrest]
    by_cases hm : m.type ≠ MarketUpdateType.snapshotStart ∧
        m.type ≠ MarketUpdateType.snapshotEnd
    · simp [hm]
    · simp [hm]

/-- The incremental walk of checkSnapshotSync skips every buffered entry
whose sequence number is below the expected value. -/
theorem incWalk_skip (pre : List (Nat × MEMarketUpdate)) :
    ∀ (e : Nat) (rest : List (Nat × MEMarketUpdate)),
    (∀ p ∈ pre, p.1 < e) →
    MarketDataConsumer.incWalk e (pre ++ rest) = MarketDataConsumer.incWalk e rest := by
  induction pre with
  | nil => intro e rest _; rfl
  | cons p pre2 ih =>
    intro e rest hlt
    obtain ⟨k, m⟩ := p
    have hk : k < e := hlt (k, m) (List.mem_cons_self _ _)
    rw [List.cons_append, MarketDataConsumer.incWalk, if_pos hk]
    exact ih e rest fun q hq => hlt q (List.mem_cons_of_mem _ hq)

/-- The incremental walk over a buffer tail whose keys are the consecutive
run starting at the expected value consumes everything: it reports a
complete set, advances the expected sequence number past the run, and
gathers the messages in order (none of which is a SNAPSHOT message). -/
theorem incWalk_consume (post : List (Nat × MEMarketUpdate)) : ∀ e : Nat,
    post.map Prod.fst = List.range' e post.length →
    (∀ p ∈ post, p.2.type ≠ MarketUpdateType.snapshotStart ∧
      p.2.type ≠ MarketUpdateType.snapshotEnd) →
    MarketDataConsumer.incWalk e post = (true, e + post.length, post.map Prod.snd) := by
  induction post with
  | nil => intro e _ _; rfl
  | cons p rest ih =>
    intro e hkeys htypes
    obtain ⟨k, m⟩ := p
    rw [List.map_cons, List.length_cons, List.range'_succ, List.cons.injEq] at hkeys
    obtain ⟨hk, hrest⟩ := hkeys
    subst hk
    rw [MarketDataConsumer.incWalk, if_neg (Nat.lt_irrefl k), if_neg (by simp),
      ih (k + 1) hrest fun q hq => htypes q (List.mem_cons_of_mem _ hq)]
    have hm := htypes (k, m) (List.mem_cons_self _ _)
    dsimp only
    rw [if_pos hm]
    simp only [List.map_cons, List.length_cons, Prod.mk.injEq]
    exact ⟨trivial, by omega, trivial⟩

/-- C1: when the buffered snapshot messages form a complete round (keys are
the contiguous run 0, 1, ..., the first message is SNAPSHOT_START, the last
is SNAPSHOT_END) and the buffered incrementals split into entries at or
below align (the SNAPSHOT_END order_id_) and a contiguous run align + 1,
align + 2, ... of proper incremental updates, checkSnapshotSync writes to
the participant book queue exactly the snapshot entries without the
SNAPSHOT_START / SNAPSHOT_END markers, in snapshot order, followed by the
buffered incrementals from align + 1 onward in sequence order; it sets
next_exp_inc_seq_num_ to the last consumed incremental sequence number plus
one, clears both buffers, clears in_recovery_ and leaves the snapshot
multicast group. -/
theorem c1_checkSnapshotSync_recovers (c : MarketDataConsumer)
    (pre post : List (Nat × MEMarketUpdate)) (align : Nat)
    (hne : c.snapshot_queued_msgs ≠ [])
    (hkeys : c.snapshot_queued_msgs.map Prod.fst =
      List.range c.snapshot_queued_msgs.length)
    (hstart : (c.snapshot_queued_msgs.head hne).2.type = MarketUpdateType.snapshotStart)
    (hend : (c.snapshot_queued_msgs.getLast hne).2.type = MarketUpdateType.snapshotEnd)
    (halign : (c.snapshot_queued_msgs.getLast hne).2.order_id = align)
    (hinc : c.incremental_queued_msgs = pre ++ post)
    (hpre : ∀ p ∈ pre, p.1 < align + 1)
    (hpost : post.map Prod.fst = List.range' (align + 1) post.length)
    (hposttypes : ∀ p ∈ post, p.2.type ≠ MarketUpdateType.snapshotStart ∧
      p.2.type ≠ MarketUpdateType.snapshotEnd) :
    MarketDataConsumer.checkSnapshotSync c =
      ({ c with snapshot_queued_msgs := [], incremental_queued_msgs := [],
                next_exp_inc_seq_num := align + 1 + post.length,
                in_recovery := false, snapshot_subscribed := false },
       (c.snapshot_queued_msgs.map Prod.snd).filter
           (fun m => decide (m.type ≠ MarketUpdateType.snapshotStart ∧
                             m.type ≠ MarketUpdateType.snapshotEnd)) ++
         post.map Prod.snd) := by
  obtain ⟨snap, inc, nx, ir, ss⟩ := c
  dsimp at hkeys hstart hend halign hinc ⊢
  subst hinc
  cases snap with
  | nil => exact absurd rfl hne
  | cons first rest =>
    rw [List.head_cons] at hstart
    rw [MarketDataConsumer.checkSnapshotSync]
    dsimp only
    rw [if_neg (by simp [hstart])]
    rw [List.range_eq_range'] at hkeys
    rw [snapWalk_complete (first :: rest) 0 hkeys]
    dsimp only
    rw [if_neg (by simp)]
    rw [halign]
    rw [incWalk_skip pre (align + 1) post hpre,
      incWalk_consume post (align + 1) hpost hposttypes]
    dsimp only
    rw [if_neg (by simp [hend]), if_neg (by simp)]

/-- C1 witness: on the concrete recovery state of the spec scenario the
check emits the snapshot body (CLEAR, ADD) followed by the incrementals 7
and 8, sets next_exp_inc_seq_num_ to 9, clears both buffers, clears
in_recovery_ and leaves the snapshot group. -/
theorem c1_recovery_witness :
    MarketDataConsumer.checkSnapshotSync c1State =
      ({ snapshot_queued_msgs := [], incremental_queued_msgs := [],
         next_exp_inc_seq_num := 9, in_recovery := false,
         snapshot_subscribed := false },
       [c1SnapClear, c1SnapAdd, c1Upd7, c1Upd8]) := by
  exact c1_checkSnapshotSync_recovers c1State [(5, c1Upd5), (6, c1Upd6)]
    [(7, c1Upd7), (8, c1Upd8)] 6
    (by decide) (by decide) (by decide) (by decide) (by decide) rfl
    (by decide) (by decide) (by decide)

/-! ## Claims C8 and C9: CLEAR and MODIFY on the participant book -/

/-- C8: processing a CLEAR market update empties the participant book
whatever its prior state: every entry of the order map becomes null and both
price-level list heads become null (the BBO sides the entry flags requested
are refreshed on the emptied book, which cannot fail). -/
theorem c8_clear_empties_book (b : MarketOrderBook) (u : MEMarketUpdate)
    (htype : u.type = MarketUpdateType.clear) :
    ∃ b2, MarketOrderBook.onMarketUpdate b u = some b2 ∧
      (∀ oid, b2.oid_to_order oid = none) ∧
      b2.bids_by_price = none ∧ b2.asks_by_price = none := by
  have hbbo : ∀ ub ua : Bool, ∃ v, MarketOrderBook.updateBBO
      { b with oid_to_order := fun _ => none, bids_by_price := none,
               asks_by_price := none } ub ua = some v := by
    intro ub ua
    cases ub <;> cases ua <;> exact ⟨_, rfl⟩
  obtain ⟨v, hv⟩ :=
    hbbo (MarketOrderBook.bidUpdatedFlag b u) (MarketOrderBook.askUpdatedFlag b u)
  have hrun : MarketOrderBook.onMarketUpdate b u =
      some { b with
             oid_to_order := fun _ => none
             bids_by_price := none
             asks_by_price := none
             bbo := v } := by
    rw [MarketOrderBook.onMarketUpdate, htype]
    dsimp only
    rw [hv]
  exact ⟨_, hrun, fun oid => rfl, rfl, rfl⟩

/-- C8 witness: clearing the concrete one-order book. -/
theorem c8_clear_witness :
    c8ClearUpd.type = MarketUpdateType.clear ∧
    ∃ b2, MarketOrderBook.onMarketUpdate c9Book c8ClearUpd = some b2 ∧
      (∀ oid, b2.oid_to_order oid = none) ∧
      b2.bids_by_price = none ∧ b2.asks_by_price = none :=
  ⟨rfl, c8_clear_empties_book c9Book c8ClearUpd rfl⟩

/-- C9: processing a MODIFY market update for a live order rewrites only
that order's quantity: the stored order keeps its price, side, priority and
its prev / next position in the price-level FIFO ring, every other order
map entry is untouched, and the price-level slot map and both side heads
are unchanged (in particular a price change carried by the MODIFY is
ignored; only bbo_ may additionally be refreshed). -/
theorem c9_modify_changes_only_qty (b : MarketOrderBook) (u : MEMarketUpdate)
    (o : MarketOrder) (b2 : MarketOrderBook)
    (htype : u.type = MarketUpdateType.modify)
    (hlive : b.oid_to_order u.order_id = some o)
    (hrun : MarketOrderBook.onMarketUpdate b u = some b2) :
    b2.oid_to_order =
      Function.update b.oid_to_order u.order_id (some { o with qty := u.qty }) ∧
    b2.price_orders_at_price = b.price_orders_at_price ∧
    b2.bids_by_price = b.bids_by_price ∧
    b2.asks_by_price = b.asks_by_price := by
  rw [MarketOrderBook.onMarketUpdate, htype] at hrun
  dsimp only at hrun
  rw [hlive] at hrun
  dsimp only at hrun
  cases hv : MarketOrderBook.updateBBO
      { b with oid_to_order :=
          Function.update b.oid_to_order u.order_id (some { o with qty := u.qty }) }
      (MarketOrderBook.bidUpdatedFlag b u) (MarketOrderBook.askUpdatedFlag b u) with
  | none =>
    rw [hv] at hrun
    exact Option.noConfusion hrun
  | some v =>
    rw [hv] at hrun
    obtain rfl : _ = b2 := Option.some.inj hrun
    exact ⟨rfl, rfl, rfl, rfl⟩

/-- C9 witness: modifying the live order 1 of the concrete book to quantity
7 rewrites exactly that entry. -/
theorem c9_modify_witness :
    ({ c9Book with
       oid_to_order :=
         Function.update c9Book.oid_to_order 1
           (some { c9Order with qty := 7 }) } : MarketOrderBook).oid_to_order =
      Function.update c9Book.oid_to_order c9ModUpd.order_id
        (some { c9Order with qty := c9ModUpd.qty }) ∧
    ({ c9Book with
       oid_to_order :=
         Function.update c9Book.oid_to_order 1
           (some { c9Order with qty := 7 }) } : MarketOrderBook).price_orders_at_price =
      c9Book.price_orders_at_price ∧
    ({ c9Book with
       oid_to_order :=
         Function.update c9Book.oid_to_order 1
           (some { c9Order with qty := 7 }) } : MarketOrderBook).bids_by_price =
      c9Book.bids_by_price ∧
    ({ c9Book with
       oid_to_order :=
         Function.update c9Book.oid_to_order 1
           (some { c9Order with qty := 7 }) } : MarketOrderBook).asks_by_price =
      c9Book.asks_by_price :=
  c9_modify_changes_only_qty c9Book c9ModUpd c9Order _ rfl rfl rfl

end LLPETM
